import Mathlib

/-!
# Verification of the CSV ingestion pipeline (`loaddata.py`) and the
# database setup schema (`datbasesetp.py`)

A shallow embedding of the parts of the two Python source files that the
specification talks about:

* `DataValidator` (clean_text, validate_email, validate_price,
  validate_integer) from `loaddata.py`;
* `CSVDataIngestion.__init__` statistics, `CSVDataIngestion.connect`, and
  `CSVDataIngestion.load_categories_csv` from `loaddata.py`;
* the `order_items` generated column and the `set_message_sequence`
  trigger from the PostgreSQL schema in `datbasesetp.py`.

Python scalar values occurring in pandas cells are modelled by `PyVal`.
Finite floats are modelled exactly as decimal fractions (`PyFloat`, an
integer numerator over a power-of-ten denominator; the rational value a
float carries is `PyFloat.toRat`). Exceptions are modelled by an explicit
`PyExn` error type, and `try/except` blocks by matching on `Except`
results.
-/

namespace Ingest

/-- A finite Python float, represented exactly as the decimal fraction
`num / 10 ^ scale` (every float the pipeline produces comes from a
decimal literal). All operations on it are integer operations, so terms
evaluate inside the kernel. -/
structure PyFloat where
  num : Int
  scale : Nat
  deriving DecidableEq, Repr

/-- The rational value of a decimal float. -/
def PyFloat.toRat (f : PyFloat) : ℚ := (f.num : ℚ) / 10 ^ f.scale

/-- Python `x >= 0` on a float: since `10 ^ scale > 0`, the value
`num / 10 ^ scale` is non-negative iff `num` is (`PyFloat.nonneg_iff`
below proves this against `toRat`). -/
def PyFloat.isNonneg (f : PyFloat) : Bool := 0 ≤ f.num

/-- Python scalar values as they occur in pandas cells: `None`, the float
NaN (what pandas uses for a missing cell), strings, ints, and finite
floats. -/
inductive PyVal where
  | none : PyVal
  | nan : PyVal
  | str : String → PyVal
  | int : Int → PyVal
  | float : PyFloat → PyVal
  deriving DecidableEq, Repr

/-- Python exceptions raised by the primitives the embedded code uses.
`OverflowError` matters because `except (ValueError, TypeError)` does
not catch it. -/
inductive PyExn where
  | valueError : PyExn
  | typeError : PyExn
  | attributeError : PyExn
  | overflowError : PyExn
  deriving DecidableEq, Repr

/-- The result of Python `float()`: a finite value, an infinity
(`true` = negative), or NaN. -/
inductive FloatV where
  | finite : PyFloat → FloatV
  | infVal : Bool → FloatV
  | nanVal : FloatV
  deriving DecidableEq, Repr

/-- Python `x >= 0` on a `float()` result: `inf >= 0` is true,
`-inf >= 0` and `nan >= 0` are false. -/
def FloatV.isNonneg : FloatV → Bool
  | .finite f => f.isNonneg
  | .infVal neg => !neg
  | .nanVal => false

/-- `pd.isna` on a scalar: true exactly for `None` and NaN. -/
def pyIsNa : PyVal → Bool
  | .none => true
  | .nan => true
  | _ => false

/-- Python truthiness of a scalar (`not x` negates this): `None`, `""`,
`0` and `0.0` are falsy; NaN is truthy. -/
def pyTruthy : PyVal → Bool
  | .none => false
  | .nan => true
  | .str s => s ≠ ""
  | .int n => n ≠ 0
  | .float f => f.num ≠ 0

/-- The whitespace characters stripped by Python's `str.strip()`
(restricted to the ASCII whitespace characters). -/
def isPySpace (c : Char) : Bool :=
  c = ' ' ∨ c = '\t' ∨ c = '\n' ∨ c = '\r' ∨ c = '\x0b' ∨ c = '\x0c'

/-- `str.lstrip()`: drop leading whitespace. -/
def pyLStrip (s : String) : String := ⟨s.data.dropWhile isPySpace⟩

/-- `str.rstrip()`: drop trailing whitespace. -/
def pyRStrip (s : String) : String := ⟨(s.data.reverse.dropWhile isPySpace).reverse⟩

/-- `str.strip()`: drop whitespace from both ends. -/
def pyStrip (s : String) : String := pyRStrip (pyLStrip s)

/-- Python `str()` applied to a scalar. Never raises. Strings are
returned unchanged (the case the pipeline exercises). A float renders as
`<num>e-<scale>`, a decimal literal with the float's exact value (the
precise digit rendering does not matter for any claim). -/
def pyStrOf : PyVal → String
  | .none => "None"
  | .nan => "nan"
  | .str s => s
  | .int n => toString n
  | .float f => if f.scale = 0 then toString f.num
      else toString f.num ++ "e-" ++ toString f.scale

/-- Lowercase one ASCII character (`str.lower()` on the ASCII range —
the database-type names the code compares against are ASCII). -/
def lowerChar (c : Char) : Char :=
  if 65 ≤ c.toNat ∧ c.toNat ≤ 90 then Char.ofNat (c.toNat + 32) else c

/-- Python `str.lower()`. -/
def pyLower (s : String) : String := ⟨s.data.map lowerChar⟩

/-- `str.replace(old, new)` with a one-character `old` and an empty
`new`, i.e. removal of every occurrence of a character. -/
def removeAll (c : Char) (s : String) : String := ⟨s.data.filter (fun d => d ≠ c)⟩

/-- Digit string to number, most significant first. -/
def digitsToNat (ds : List Char) : Nat :=
  ds.foldl (fun a c => 10 * a + (c.toNat - 48)) 0

/-- Parse an unsigned decimal literal `digits [. digits]` / `. digits`,
returning its mantissa, its number of fractional digits and the
unconsumed rest: `"12.75"` parses to mantissa `1275` with `2` fractional
digits. -/
def parseUnsigned (cs : List Char) : Option ((Nat × Nat) × List Char) :=
  let intPart := cs.takeWhile Char.isDigit
  let rest := cs.dropWhile Char.isDigit
  match rest with
  | '.' :: rest2 =>
      let fracPart := rest2.takeWhile Char.isDigit
      let rest3 := rest2.dropWhile Char.isDigit
      if intPart.isEmpty ∧ fracPart.isEmpty then Option.none
      else Option.some ((digitsToNat intPart * 10 ^ fracPart.length
        + digitsToNat fracPart, fracPart.length), rest3)
  | _ =>
      if intPart.isEmpty then Option.none
      else Option.some ((digitsToNat intPart, 0), rest)

/-- Parse an optional exponent part `(e|E) [+|-] digits`. -/
def parseExponent (cs : List Char) : Option (Int × List Char) :=
  match cs with
  | 'e' :: rest => parseSignedDigits rest
  | 'E' :: rest => parseSignedDigits rest
  | _ => Option.some (0, cs)
where
  parseSignedDigits (cs : List Char) : Option (Int × List Char) :=
    let (sign, cs') : Int × List Char :=
      match cs with
      | '+' :: r => (1, r)
      | '-' :: r => (-1, r)
      | r => (1, r)
    let ds := cs'.takeWhile Char.isDigit
    if ds.isEmpty then Option.none
    else Option.some (sign * (digitsToNat ds : Int), cs'.dropWhile Char.isDigit)

/-- Split an optional leading sign off a character list. -/
def splitSign (cs : List Char) : Int × List Char :=
  match cs with
  | '+' :: r => (1, r)
  | '-' :: r => (-1, r)
  | r => (1, r)

/-- Assemble a signed mantissa, fractional-digit count and decimal
exponent into a float: the value `sign * m / 10 ^ frac * 10 ^ e`. -/
def assembleFloat (sign : Int) (m : Nat) (frac : Nat) (e : Int) : PyFloat :=
  if 0 ≤ e then ⟨sign * (m : Int) * 10 ^ e.toNat, frac⟩
  else ⟨sign * (m : Int), frac + (-e).toNat⟩

/-- Python `float()` applied to a string, restricted to the finite
range: surrounding whitespace is ignored, then an optional sign, a
decimal literal and an optional exponent must consume the whole string.
Failure is Python's `ValueError`. This finite-scope function is what the
per-value claims about `validate_price`/`validate_integer` need; the
non-finite outcomes of `float()` — the literals `inf`/`infinity`/`nan`
and the overflow of huge literals to an infinity — are modelled on top
of it by `pyFloatEvalStr`, and the totality analysis uses that full
version. -/
def pyFloatOfStr (s : String) : Except PyExn PyFloat :=
  let sc := splitSign (pyStrip s).data
  match parseUnsigned sc.2 with
  | Option.none => .error .valueError
  | Option.some ((m, frac), rest) =>
      match parseExponent rest with
      | Option.none => .error .valueError
      | Option.some (e, rest2) =>
          if rest2.isEmpty then .ok (assembleFloat sc.1 m frac e)
          else .error .valueError

/-- Python `float()` applied to a scalar value, restricted to the
finite range. `float(None)` raises `TypeError`. Both call sites guard
with `pd.isna` first, so the NaN case is unreachable there;
`int(float(nan))` would raise `ValueError`, which is what we record for
it. Ints are converted exactly here; the `OverflowError` that `float()`
raises on an int beyond double range is modelled by the full version
`pyFloatEvalVal`, which the totality analysis uses. -/
def pyFloatOfVal : PyVal → Except PyExn PyFloat
  | .none => .error .typeError
  | .nan => .error .valueError
  | .str s => pyFloatOfStr s
  | .int n => .ok ⟨n, 0⟩
  | .float f => .ok f

/-- Python `int()` applied to a float: truncation toward zero of
`num / 10 ^ scale`, i.e. truncating integer division. -/
def pyIntOfFloat (f : PyFloat) : Int := f.num.tdiv (10 ^ f.scale)

/-- Python `'@' in x` (membership test): defined for strings, raises
`TypeError` on non-container scalars. -/
def pyContainsChar (c : Char) : PyVal → Except PyExn Bool
  | .str s => .ok (s.data.contains c)
  | _ => .error .typeError

/-! ## `DataValidator` (loaddata.py lines 49–85) -/

/-- `DataValidator.clean_text`:
`if pd.isna(text) or text is None: return ""` then
`return str(text).strip()`. No primitive in the body can raise. -/
def clean_text (text : PyVal) : String :=
  if pyIsNa text ∨ text = PyVal.none then ""
  else pyStrip (pyStrOf text)

/-- `DataValidator.validate_email`:
`if not email or '@' not in email: return False` then `return True`.
The membership test can raise `TypeError` (there is no `try/except`),
which the `Except` result records. -/
def validate_email (email : PyVal) : Except PyExn Bool :=
  if ¬ pyTruthy email then .ok false
  else
    match pyContainsChar '@' email with
    | .error e => .error e
    | .ok b => if ¬ b then .ok false else .ok true

/-- The body of `DataValidator.validate_price` before the `except`
handler: `if pd.isna(price): return None`,
`price_float = float(str(price).replace('$', '').replace(',', ''))`,
`return price_float if price_float >= 0 else None`. -/
def validate_price_body (price : PyVal) : Except PyExn (Option PyFloat) :=
  if pyIsNa price then .ok Option.none
  else
    match pyFloatOfStr (removeAll ',' (removeAll '$' (pyStrOf price))) with
    | .error e => .error e
    | .ok price_float =>
        .ok (if price_float.isNonneg then Option.some price_float else Option.none)

/-- `DataValidator.validate_price` with its
`except (ValueError, TypeError): return None` handler. -/
def validate_price (price : PyVal) : Except PyExn (Option PyFloat) :=
  match validate_price_body price with
  | .ok r => .ok r
  | .error .valueError => .ok Option.none
  | .error .typeError => .ok Option.none
  | .error e => .error e

/-- The body of `DataValidator.validate_integer` before the `except`
handler: `if pd.isna(value): return None`, `return int(float(value))`. -/
def validate_integer_body (value : PyVal) : Except PyExn (Option Int) :=
  if pyIsNa value then .ok Option.none
  else
    match pyFloatOfVal value with
    | .error e => .error e
    | .ok q => .ok (Option.some (pyIntOfFloat q))

/-- `DataValidator.validate_integer` with its
`except (ValueError, TypeError): return None` handler, over the
finite-range float model (see `validate_integer_full` for the model
with the non-finite `float()` outcomes). -/
def validate_integer (value : PyVal) : Except PyExn (Option Int) :=
  match validate_integer_body value with
  | .ok r => .ok r
  | .error .valueError => .ok Option.none
  | .error .typeError => .ok Option.none
  | .error e => .error e

/-! ### The full `float()` model: infinities, NaN, overflow

Python `float()` does not stay in the finite range: `float("inf")` and
`float("1e400")` return an infinity, `float("nan")` returns NaN, and
`float()` of an int beyond double range raises `OverflowError` — and
`int()` of an infinity raises `OverflowError` too, which
`except (ValueError, TypeError)` does not catch. The definitions below
model this path; the totality claim is settled against them. -/

/-- Does an exact decimal exceed the double range? Doubles overflow to
an infinity at `(2 - 2 ^ -53) * 2 ^ 1023`; we use the threshold
`2 ^ 1024`, leaving the razor-thin rounding band between the two
modelled as finite — no claim exercises values in that band. -/
def overflowsDouble (f : PyFloat) : Bool :=
  2 ^ 1024 * 10 ^ f.scale ≤ f.num.natAbs

/-- Python `float()` on a string with the non-finite outcomes modelled:
after the sign, the literals `inf`/`infinity`/`nan` (case-insensitive)
give an infinity or NaN, and an overflowing decimal literal converts to
an infinity, never an exception. Underflow of tiny literals to zero is
not modelled (no claim exercises it). -/
def pyFloatEvalStr (s : String) : Except PyExn FloatV :=
  let sc := splitSign (pyStrip s).data
  let low := sc.2.map lowerChar
  if low = ['i', 'n', 'f'] ∨ low = ['i', 'n', 'f', 'i', 'n', 'i', 't', 'y'] then
    .ok (FloatV.infVal (decide (sc.1 < 0)))
  else if low = ['n', 'a', 'n'] then .ok FloatV.nanVal
  else
    match pyFloatOfStr s with
    | .error e => .error e
    | .ok f =>
        .ok (if overflowsDouble f then FloatV.infVal (decide (f.num < 0))
             else FloatV.finite f)

/-- Python `float()` on a scalar with the non-finite outcomes modelled:
`float(nan)` is NaN, and `float()` of an int beyond double range raises
`OverflowError` (same `2 ^ 1024` threshold; the double rounding of ints
above `2 ^ 53` is not modelled — no claim compares such values). -/
def pyFloatEvalVal : PyVal → Except PyExn FloatV
  | .none => .error .typeError
  | .nan => .ok FloatV.nanVal
  | .str s => pyFloatEvalStr s
  | .int n =>
      if 2 ^ 1024 ≤ n.natAbs then .error .overflowError
      else .ok (FloatV.finite ⟨n, 0⟩)
  | .float f => .ok (FloatV.finite f)

/-- Python `int()` on a `float()` result: truncation toward zero for a
finite value, `OverflowError` on an infinity, `ValueError` on NaN. -/
def pyIntOfFloatV : FloatV → Except PyExn Int
  | .finite f => .ok (pyIntOfFloat f)
  | .infVal _ => .error .overflowError
  | .nanVal => .error .valueError

/-- The body of `DataValidator.validate_price` under the full float
model: an overflowing price string becomes an infinity and flows into
the `>= 0` comparison, never an exception. -/
def validate_price_body_full (price : PyVal) : Except PyExn (Option FloatV) :=
  if pyIsNa price then .ok Option.none
  else
    match pyFloatEvalStr (removeAll ',' (removeAll '$' (pyStrOf price))) with
    | .error e => .error e
    | .ok price_float =>
        .ok (if price_float.isNonneg then Option.some price_float else Option.none)

/-- `DataValidator.validate_price` under the full float model, with its
`except (ValueError, TypeError): return None` handler. -/
def validate_price_full (price : PyVal) : Except PyExn (Option FloatV) :=
  match validate_price_body_full price with
  | .ok r => .ok r
  | .error .valueError => .ok Option.none
  | .error .typeError => .ok Option.none
  | .error e => .error e

/-- The body of `DataValidator.validate_integer` under the full float
model: `int(float(value))` with both conversions able to raise. -/
def validate_integer_body_full (value : PyVal) : Except PyExn (Option Int) :=
  if pyIsNa value then .ok Option.none
  else
    match pyFloatEvalVal value with
    | .error e => .error e
    | .ok fv =>
        match pyIntOfFloatV fv with
        | .error e => .error e
        | .ok n => .ok (Option.some n)

/-- `DataValidator.validate_integer` under the full float model:
`except (ValueError, TypeError)` does not catch `OverflowError`, which
propagates out of the validator. -/
def validate_integer_full (value : PyVal) : Except PyExn (Option Int) :=
  match validate_integer_body_full value with
  | .ok r => .ok r
  | .error .valueError => .ok Option.none
  | .error .typeError => .ok Option.none
  | .error e => .error e

/-! ## DataFrames

A pandas `DataFrame` read from a CSV is modelled as its list of column
names plus one association list of cells per row; a cell missing from a
row of an existing column reads as NaN, exactly what `pd.read_csv`
produces for an empty cell. -/

/-- One row: column name to cell value. -/
abbrev Row := List (String × PyVal)

/-- Read a cell; a missing cell of an existing column is NaN. -/
def getCell (r : Row) (c : String) : PyVal :=
  match r.find? (fun p => p.1 = c) with
  | Option.some p => p.2
  | Option.none => .nan

/-- Write (or add) a cell. -/
def setCell (r : Row) (c : String) (v : PyVal) : Row :=
  if r.any (fun p => p.1 = c) then r.map (fun p => if p.1 = c then (c, v) else p)
  else r ++ [(c, v)]

/-- A parsed CSV. -/
structure Frame where
  cols : List String
  rows : List Row

/-! ## `CSVDataIngestion` statistics (loaddata.py lines 97–105) -/

/-- One `{'processed': 0, 'inserted': 0, 'errors': 0}` triple. -/
structure EntityStats where
  processed : Nat
  inserted : Nat
  errors : Nat
  deriving DecidableEq, Repr

/-- The `self.stats` dictionary: one counter triple per entity type. -/
structure Stats where
  categories : EntityStats
  products : EntityStats
  orders : EntityStats
  order_items : EntityStats
  users : EntityStats
  conversations : EntityStats
  deriving DecidableEq, Repr

/-- The statistics as `__init__` creates them: all counters zero. -/
def initStats : Stats :=
  ⟨⟨0, 0, 0⟩, ⟨0, 0, 0⟩, ⟨0, 0, 0⟩, ⟨0, 0, 0⟩, ⟨0, 0, 0⟩, ⟨0, 0, 0⟩⟩

/-! ## `CSVDataIngestion.connect` (loaddata.py lines 107–134) -/

/-- A backend handle (psycopg2 connection, SQLAlchemy engine, Mongo
client — their internals are external to this core). -/
inductive DbHandle where
  | pg : DbHandle
  | my : DbHandle
  | mongo : DbHandle
  deriving DecidableEq, Repr

/-- The connection state of a `CSVDataIngestion` object:
`self.db_type` (lowercased by `__init__`), `self.connection` and
`self.engine` (both `None` after `__init__`). -/
structure Ingestion where
  db_type : String
  connection : Option DbHandle
  engine : Option DbHandle
  deriving DecidableEq, Repr

/-- `CSVDataIngestion.__init__`: `self.db_type = db_type.lower()`,
`self.connection = None`, `self.engine = None`. -/
def mkIngestion (db_type : String) : Ingestion :=
  ⟨pyLower db_type, Option.none, Option.none⟩

/-- `CSVDataIngestion.connect`. The externally-determined outcome of the
backend driver call (`psycopg2.connect` / `mysql.connector.connect` /
`MongoClient`) is the parameter `driverOk`; a raising driver call is
caught by the handler, which returns `False` with the state unchanged.
When `db_type` matches no branch, the method logs success and returns
`True` without touching `self.connection` or `self.engine`. -/
def connect (ing : Ingestion) (driverOk : Bool) : Bool × Ingestion :=
  if ing.db_type = "postgresql" then
    if driverOk then (true, { ing with connection := Option.some .pg, engine := Option.some .pg })
    else (false, ing)
  else if ing.db_type = "mysql" then
    if driverOk then (true, { ing with connection := Option.some .my, engine := Option.some .my })
    else (false, ing)
  else if ing.db_type = "mongodb" then
    if driverOk then (true, { ing with connection := Option.some .mongo })
    else (false, ing)
  else (true, ing)

/-! ## `CSVDataIngestion.load_categories_csv` (loaddata.py lines 136–184) -/

/-- `df['name'] = df['name'].apply(clean_text)` and
`df['description'] = df.get('description', '').apply(clean_text)`,
on the path where the `description` column exists. -/
def cleanCategories (df : Frame) : Frame :=
  { df with rows := df.rows.map (fun r =>
      setCell (setCell r "name" (.str (clean_text (getCell r "name"))))
        "description" (.str (clean_text (getCell r "description")))) }

/-- `df = df[df['name'] != '']`: keep the rows with a non-empty name. -/
def keepNonEmptyName (rows : List Row) : List Row :=
  rows.filter (fun r => getCell r "name" ≠ PyVal.str "")

/-- The rows the empty-name filter drops (for accounting). -/
def emptyNameDropped (rows : List Row) : List Row :=
  rows.filter (fun r => getCell r "name" = PyVal.str "")

/-- `df = df.drop_duplicates(subset=['name'])`: keep the first row for
each name (first component), and also return the dropped later
duplicates (second component, for accounting). `seen` carries the names
already kept. -/
def dedupByName : List Row → List PyVal → List Row × List Row
  | [], _ => ([], [])
  | r :: rs, seen =>
      let k := getCell r "name"
      if k ∈ seen then
        ((dedupByName rs seen).1, r :: (dedupByName rs seen).2)
      else
        (r :: (dedupByName rs (k :: seen)).1, (dedupByName rs (k :: seen)).2)

/-- The result of one `load_*_csv` call: the returned boolean, the
statistics afterwards, and the rows handed to the backend for
insertion. -/
structure LoadResult where
  success : Bool
  stats : Stats
  insertedRows : List Row
  deriving DecidableEq, Repr

/-- `CSVDataIngestion.load_categories_csv`. `dbType` is `self.db_type`;
`dbInsertOk` is the externally-determined outcome of the backend insert
call (`to_sql` / `insert_many`), whose raising is caught by the
`except` handler (`errors += 1`, return `False`).

Control flow from the source:
* missing `name` column: log and `return False` before any per-cell
  work (lines 146–149);
* missing `description` column: `df.get('description', '')` returns the
  plain string `''`, and `''.apply(...)` raises `AttributeError`, which
  the `except Exception` handler catches — `errors += 1`, `return False`;
* otherwise clean both columns, drop empty names, drop duplicate names,
  set `processed`, then insert per backend and set `inserted`; a
  `db_type` matching no branch inserts nothing and still returns `True`.
  (The MongoDB branch also stamps `created_at` on each record; the
  timestamp is external to the claims and not modelled.) -/
def load_categories_csv (dbType : String) (dbInsertOk : Bool) (df : Frame)
    (st : Stats) : LoadResult :=
  if "name" ∈ df.cols then
    if "description" ∈ df.cols then
      let cleaned := cleanCategories df
      let kept := keepNonEmptyName cleaned.rows
      let uniq := (dedupByName kept []).1
      let st₁ := { st with categories := { st.categories with processed := uniq.length } }
      if dbType = "postgresql" ∨ dbType = "mysql" then
        if dbInsertOk then
          ⟨true, { st₁ with categories := { st₁.categories with inserted := uniq.length } }, uniq⟩
        else
          ⟨false, { st₁ with categories :=
            { st₁.categories with errors := st₁.categories.errors + 1 } }, []⟩
      else if dbType = "mongodb" then
        if uniq ≠ [] then
          if dbInsertOk then
            ⟨true, { st₁ with categories := { st₁.categories with inserted := uniq.length } }, uniq⟩
          else
            ⟨false, { st₁ with categories :=
              { st₁.categories with errors := st₁.categories.errors + 1 } }, []⟩
        else ⟨true, st₁, []⟩
      else ⟨true, st₁, []⟩
    else
      ⟨false, { st with categories :=
        { st.categories with errors := st.categories.errors + 1 } }, []⟩
  else ⟨false, st, []⟩

/-- The spec's example categories source
`[{name:"Books"}, {name:"Books"}, {name:""}]` with a `description`
column present (so the load takes its normal path). -/
def dfBooks : Frame :=
  ⟨["name", "description"],
   [[("name", .str "Books"), ("description", .str "classic")],
    [("name", .str "Books"), ("description", .str "again")],
    [("name", .str ""), ("description", .str "nameless")]]⟩

/-- The spec's example categories source exactly as written:
`[{name:"Books"}, {name:"Books"}, {name:""}]` — rows carrying only a
`name`, i.e. a CSV with no `description` column. -/
def dfBooksNoDesc : Frame :=
  ⟨["name"],
   [[("name", .str "Books")], [("name", .str "Books")], [("name", .str "")]]⟩

end Ingest

namespace Schema

/-! ## PostgreSQL schema (datbasesetp.py, `PostgreSQLSetup.create_tables`) -/

/-- A stored `order_items` row. `total_price` is the stored value of the
generated column. -/
structure OrderItemRow where
  order_id : Option Nat
  product_id : Option Nat
  quantity : Int
  unit_price : Ingest.PyFloat
  total_price : ℚ
  deriving DecidableEq

/-- An `INSERT` into `order_items`. The DDL declares
`total_price DECIMAL(10,2) GENERATED ALWAYS AS (quantity * unit_price)
STORED`: an insert can not supply `total_price` — there is no parameter
for it — and the stored value is computed from the inserted `quantity`
and `unit_price`. The `CHECK` constraints `quantity > 0` and
`unit_price >= 0` reject the insert (`Option.none`) when violated. -/
def insertOrderItem (tbl : List OrderItemRow) (oid pid : Option Nat)
    (quantity : Int) (unit_price : Ingest.PyFloat) : Option (List OrderItemRow) :=
  if 0 < quantity ∧ 0 ≤ unit_price.num then
    Option.some (tbl ++ [⟨oid, pid, quantity, unit_price,
      (quantity : ℚ) * unit_price.toRat⟩])
  else Option.none

/-- The `order_items` tables reachable from the empty table by
successful inserts. -/
inductive OrderItemsReachable : List OrderItemRow → Prop
  | nil : OrderItemsReachable []
  | insert {tbl tbl' : List OrderItemRow} {oid pid : Option Nat} {q : Int}
      {u : Ingest.PyFloat} :
      OrderItemsReachable tbl →
      insertOrderItem tbl oid pid q u = Option.some tbl' →
      OrderItemsReachable tbl'

/-! ## The `set_message_sequence` trigger (datbasesetp.py lines 308–326)

`BEFORE INSERT ON messages FOR EACH ROW` the trigger executes
`NEW.sequence_number = COALESCE((SELECT MAX(sequence_number) + 1 FROM
messages WHERE conversation_id = NEW.conversation_id), 1)`. The
`messages` table is modelled by its list of
`(conversation_id, sequence_number)` pairs in insertion order. -/

/-- The sequence numbers stored for one conversation, in insertion
order. -/
def seqsOf (tbl : List (Nat × Nat)) (cid : Nat) : List Nat :=
  (tbl.filter (fun m => m.1 = cid)).map (fun m => m.2)

/-- The value the trigger assigns: `COALESCE(MAX + 1, 1)` over the
conversation's rows. -/
def triggerSeq (tbl : List (Nat × Nat)) (cid : Nat) : Nat :=
  match (seqsOf tbl cid).max? with
  | Option.some m => m + 1
  | Option.none => 1

/-- Insert a message. The `supplied` argument is whatever
`sequence_number` the inserting statement carried; the `BEFORE INSERT`
trigger overwrites it unconditionally, so it does not influence the
stored row. -/
def insertMessage (tbl : List (Nat × Nat)) (cid : Nat)
    (supplied : Option Nat) : List (Nat × Nat) :=
  tbl ++ [(cid, triggerSeq tbl cid)]

/-- The message tables reachable from empty by inserts. -/
inductive MsgReachable : List (Nat × Nat) → Prop
  | nil : MsgReachable []
  | insert {tbl : List (Nat × Nat)} (cid : Nat) (supplied : Option Nat) :
      MsgReachable tbl → MsgReachable (insertMessage tbl cid supplied)

/-- Modelled from the spec: the message-ingestion code for the document
backend is not under `src/` (`loaddata.py` is cut off before any
message loading, and the MongoDB setup creates the `messages` collection
without any sequence logic). The spec requires sequence assignment to
"be replicated explicitly in application logic for backends lacking
triggers … a per-conversation counter maintained by the coordinator".
The state is that counter map plus the stored documents. -/
structure DocMsgState where
  counters : Nat → Nat
  msgs : List (Nat × Nat)

/-- Modelled from the spec: inserting a message on the document backend
increments the conversation's counter and stores that value, ignoring
any source-supplied sequence number. -/
def docInsertMessage (st : DocMsgState) (cid : Nat)
    (supplied : Option Nat) : DocMsgState :=
  let seq := st.counters cid + 1
  ⟨fun c => if c = cid then seq else st.counters c, st.msgs ++ [(cid, seq)]⟩

/-- Document-backend states reachable from the empty store. -/
inductive DocReachable : DocMsgState → Prop
  | nil : DocReachable ⟨fun _ => 0, []⟩
  | insert {st : DocMsgState} (cid : Nat) (supplied : Option Nat) :
      DocReachable st → DocReachable (docInsertMessage st cid supplied)

/-- A sample stored order item, as `insertOrderItem` produces it. -/
def sampleOrderItem : OrderItemRow :=
  ⟨Option.some 1, Option.some 1, 2, ⟨250, 2⟩,
   ((2 : ℤ) : ℚ) * Ingest.PyFloat.toRat ⟨250, 2⟩⟩

/-- A one-row `order_items` table. -/
def sampleOrderItems : List OrderItemRow := [sampleOrderItem]

end Schema

deriving instance DecidableEq for Except

namespace Ingest

theorem PyFloat.toRat_nonneg_iff (f : PyFloat) : 0 ≤ f.toRat ↔ 0 ≤ f.num := by
  unfold PyFloat.toRat
  rw [le_div_iff₀ (by positivity), zero_mul, Int.cast_nonneg]

theorem PyFloat.isNonneg_iff (f : PyFloat) : f.isNonneg = true ↔ 0 ≤ f.toRat := by
  unfold PyFloat.isNonneg
  rw [decide_eq_true_eq, PyFloat.toRat_nonneg_iff]

/-- `int()` of a float is its floor when non-negative and its ceiling
when negative: truncation toward zero. -/
theorem pyIntOfFloat_eq (f : PyFloat) :
    pyIntOfFloat f = if 0 ≤ f.toRat then ⌊f.toRat⌋ else ⌈f.toRat⌉ := by
  unfold pyIntOfFloat
  have hcast : f.toRat = ((f.num : ℚ) / ((10 ^ f.scale : ℕ) : ℚ)) := by
    unfold PyFloat.toRat; push_cast; ring
  have hpow : ((10 : ℤ) ^ f.scale) = ((10 ^ f.scale : ℕ) : ℤ) := by push_cast; ring
  by_cases h : 0 ≤ f.num
  · rw [if_pos ((PyFloat.toRat_nonneg_iff f).mpr h)]
    rw [hcast, Rat.floor_intCast_div_natCast, Int.tdiv_eq_ediv h (by positivity), hpow]
  · rw [if_neg (fun hc => h ((PyFloat.toRat_nonneg_iff f).mp hc))]
    have h2 : f.num.tdiv (10 ^ f.scale) = -((-f.num).tdiv (10 ^ f.scale)) := by
      rw [Int.neg_tdiv, neg_neg]
    rw [h2, Int.tdiv_eq_ediv (by omega) (by positivity), hpow]
    have h3 : (-f.num) / ((10 ^ f.scale : ℕ) : ℤ) = ⌊((-f.num : ℤ) : ℚ) / ((10 ^ f.scale : ℕ) : ℚ)⌋ :=
      (Rat.floor_intCast_div_natCast _ _).symm
    rw [h3]
    have h4 : (((-f.num : ℤ) : ℚ) / ((10 ^ f.scale : ℕ) : ℚ)) = -f.toRat := by
      rw [hcast]; push_cast; ring
    rw [h4, Int.floor_neg, neg_neg]

/-- `float()` on a string can only raise `ValueError`. -/
theorem pyFloatOfStr_error {s : String} {e : PyExn}
    (h : pyFloatOfStr s = .error e) : e = .valueError := by
  simp only [pyFloatOfStr] at h
  split at h
  · exact (Except.error.injEq _ _ ▸ congrArg id h).symm ▸ rfl
  · split at h
    · exact (Except.error.injEq _ _ ▸ congrArg id h).symm ▸ rfl
    · split at h
      · exact absurd h (by simp)
      · exact (Except.error.injEq _ _ ▸ congrArg id h).symm ▸ rfl

/-- `float()` on a scalar can only raise `ValueError` or `TypeError`. -/
theorem pyFloatOfVal_error {v : PyVal} {e : PyExn}
    (h : pyFloatOfVal v = .error e) : e = .valueError ∨ e = .typeError := by
  cases v with
  | none => right; cases h; rfl
  | nan => left; cases h; rfl
  | str s => left; exact pyFloatOfStr_error h
  | int n => cases h
  | float f => cases h

/-- The body of `validate_price` can only raise `ValueError`. -/
theorem validate_price_body_error {v : PyVal} {e : PyExn}
    (h : validate_price_body v = .error e) : e = .valueError := by
  unfold validate_price_body at h
  split at h
  · cases h
  · split at h
    · next e' he' => cases h; exact pyFloatOfStr_error he'
    · cases h

/-- The body of `validate_integer` can only raise `ValueError` or
`TypeError`. -/
theorem validate_integer_body_error {v : PyVal} {e : PyExn}
    (h : validate_integer_body v = .error e) : e = .valueError ∨ e = .typeError := by
  unfold validate_integer_body at h
  split at h
  · cases h
  · split at h
    · next e' he' => cases h; exact pyFloatOfVal_error he'
    · cases h

/-- C3. `validate_price` returns none for missing input, strips the
currency symbol `$` and the grouping separator `,` before the numeric
conversion, returns none (not an error and not 0) when the conversion
fails or the result is negative, and returns the parsed value when it is
non-negative; concretely `"$1,299.00"` yields the value `1299` and
`"-5"` yields none. -/
theorem validate_price_spec :
    (∀ v, pyIsNa v = true → validate_price v = .ok Option.none)
    ∧ (∀ s e, pyFloatOfStr (removeAll ',' (removeAll '$' s)) = .error e →
        validate_price (.str s) = .ok Option.none)
    ∧ (∀ s f, pyFloatOfStr (removeAll ',' (removeAll '$' s)) = .ok f →
        f.toRat < 0 → validate_price (.str s) = .ok Option.none)
    ∧ (∀ s f, pyFloatOfStr (removeAll ',' (removeAll '$' s)) = .ok f →
        0 ≤ f.toRat → validate_price (.str s) = .ok (Option.some f))
    ∧ validate_price (.str "$1,299.00") = .ok (Option.some ⟨129900, 2⟩)
    ∧ PyFloat.toRat ⟨129900, 2⟩ = 1299
    ∧ validate_price (.str "-5") = .ok Option.none := by
  refine ⟨?_, ?_, ?_, ?_, by decide, by norm_num [PyFloat.toRat], by decide⟩
  · intro v hv
    simp [validate_price, validate_price_body, hv]
  · intro s e h
    have he := pyFloatOfStr_error h
    subst he
    simp [validate_price, validate_price_body, pyIsNa, pyStrOf, h]
  · intro s f h hneg
    have hb : f.isNonneg = false := by
      rw [← Bool.not_eq_true, PyFloat.isNonneg_iff]
      exact not_le.mpr hneg
    simp [validate_price, validate_price_body, pyIsNa, pyStrOf, h, hb]
  · intro s f h hpos
    have hb : f.isNonneg = true := (PyFloat.isNonneg_iff f).mpr hpos
    simp [validate_price, validate_price_body, pyIsNa, pyStrOf, h, hb]

theorem validate_price_spec_witness :
    validate_price (.str "$1,299.00") = .ok (Option.some ⟨129900, 2⟩) :=
  validate_price_spec.2.2.2.1 "$1,299.00" ⟨129900, 2⟩ (by decide)
    (by norm_num [PyFloat.toRat])

/-- C6 counterexample. On input `"-2.5"` (a value that converts to the
float `-5/2`) `validate_integer` returns `-2`, the truncation toward
zero, while the floor of `-5/2` is `-3`: the code does not floor. -/
theorem validate_integer_floor_cex :
    pyFloatOfVal (.str "-2.5") = .ok ⟨-25, 1⟩
    ∧ PyFloat.toRat ⟨-25, 1⟩ = -5 / 2
    ∧ validate_integer (.str "-2.5") = .ok (Option.some (-2))
    ∧ (⌊PyFloat.toRat ⟨-25, 1⟩⌋ : Int) = -3
    ∧ validate_integer (.str "-2.5") ≠ .ok (Option.some ⌊PyFloat.toRat ⟨-25, 1⟩⌋) := by
  have ht : PyFloat.toRat ⟨-25, 1⟩ = -5 / 2 := by norm_num [PyFloat.toRat]
  have hf : (⌊PyFloat.toRat ⟨-25, 1⟩⌋ : Int) = -3 := by
    rw [ht, Int.floor_eq_iff]; norm_num
  refine ⟨by decide, ht, by decide, hf, ?_⟩
  rw [hf]
  decide

/-- C6 amended. `validate_integer` returns none for missing input and
for input `float()` rejects; for every value converting to a float it
returns that float truncated toward zero (floor for non-negative values,
ceiling for negative ones) — not the floor. -/
theorem validate_integer_trunc :
    (∀ v, pyIsNa v = true → validate_integer v = .ok Option.none)
    ∧ (∀ v e, pyFloatOfVal v = .error e → validate_integer v = .ok Option.none)
    ∧ (∀ v f, pyIsNa v = false → pyFloatOfVal v = .ok f →
        validate_integer v
          = .ok (Option.some (if 0 ≤ f.toRat then ⌊f.toRat⌋ else ⌈f.toRat⌉))) := by
  refine ⟨?_, ?_, ?_⟩
  · intro v hv
    simp [validate_integer, validate_integer_body, hv]
  · intro v e h
    by_cases hna : pyIsNa v = true
    · simp [validate_integer, validate_integer_body, hna]
    · rcases pyFloatOfVal_error h with rfl | rfl <;>
        simp [validate_integer, validate_integer_body, hna, h]
  · intro v f hna hf
    simp [validate_integer, validate_integer_body, hna, hf, pyIntOfFloat_eq]

theorem validate_integer_trunc_witness :
    validate_integer (.str "2.5")
      = .ok (Option.some
          (if 0 ≤ PyFloat.toRat ⟨25, 1⟩ then ⌊PyFloat.toRat ⟨25, 1⟩⌋
           else ⌈PyFloat.toRat ⟨25, 1⟩⌉)) :=
  validate_integer_trunc.2.2 (.str "2.5") ⟨25, 1⟩ (by decide) (by decide)

theorem dropWhile_dropWhile {α : Type} (p : α → Bool) (l : List α) :
    (l.dropWhile p).dropWhile p = l.dropWhile p := by
  induction l with
  | nil => rfl
  | cons a t ih =>
    by_cases h : p a
    · simp [List.dropWhile_cons, h, ih]
    · simp [List.dropWhile_cons, h]

theorem head_dropWhile_false {α : Type} {p : α → Bool} {l : List α} {a : α}
    (h : (l.dropWhile p).head? = Option.some a) : p a = false := by
  induction l with
  | nil => simp at h
  | cons b t ih =>
    by_cases hb : p b
    · rw [List.dropWhile_cons, if_pos hb] at h
      exact ih h
    · rw [List.dropWhile_cons, if_neg hb] at h
      simp only [List.head?_cons, Option.some.injEq] at h
      subst h
      exact Bool.not_eq_true _ ▸ hb

theorem dropWhile_eq_self_of_head {α : Type} {p : α → Bool} {l : List α}
    (h : ∀ a, l.head? = Option.some a → p a = false) : l.dropWhile p = l := by
  cases l with
  | nil => rfl
  | cons b t => simp [List.dropWhile_cons, h b rfl]

/-- `rstrip` of an already right-stripped string does nothing. -/
theorem pyRStrip_pyStrip (s : String) : pyRStrip (pyStrip s) = pyStrip s := by
  unfold pyStrip pyRStrip pyLStrip
  apply congrArg String.mk
  rw [List.reverse_reverse]
  rw [dropWhile_dropWhile]

/-- The first character of a stripped string is not whitespace. -/
theorem head_pyStrip {s : String} {c : Char}
    (h : (pyStrip s).data.head? = Option.some c) : isPySpace c = false := by
  unfold pyStrip pyRStrip pyLStrip at h
  rcases List.dropWhile_suffix (l := (s.data.dropWhile isPySpace).reverse) isPySpace with ⟨t, ht⟩
  have hd : s.data.dropWhile isPySpace
      = ((s.data.dropWhile isPySpace).reverse.dropWhile isPySpace).reverse ++ t.reverse := by
    have := congrArg List.reverse ht
    simpa [List.reverse_append] using this.symm
  apply head_dropWhile_false (l := s.data)
  rw [hd]
  revert h
  cases hrev : ((s.data.dropWhile isPySpace).reverse.dropWhile isPySpace).reverse with
  | nil => intro h; simp at h
  | cons x xs => intro h; simpa using h

/-- The last character of a stripped string is not whitespace. -/
theorem last_pyStrip {s : String} {c : Char}
    (h : (pyStrip s).data.getLast? = Option.some c) : isPySpace c = false := by
  unfold pyStrip pyRStrip pyLStrip at h
  rw [List.getLast?_reverse] at h
  exact head_dropWhile_false h

/-- `str.strip()` is idempotent. -/
theorem pyStrip_pyStrip (s : String) : pyStrip (pyStrip s) = pyStrip s := by
  have hl : pyLStrip (pyStrip s) = pyStrip s := by
    unfold pyLStrip
    have : (pyStrip s).data.dropWhile isPySpace = (pyStrip s).data :=
      dropWhile_eq_self_of_head (fun a ha => head_pyStrip ha)
    rw [this]
  show pyRStrip (pyLStrip (pyStrip s)) = pyStrip s
  rw [hl, pyRStrip_pyStrip]

/-- `clean_text` yields either the empty string or a stripped string. -/
theorem clean_text_cases (v : PyVal) :
    clean_text v = "" ∨ ∃ s, clean_text v = pyStrip s := by
  unfold clean_text
  split
  · exact Or.inl rfl
  · exact Or.inr ⟨pyStrOf v, rfl⟩

/-- C10. `clean_text` is idempotent, and its result never has a leading
or trailing whitespace character. -/
theorem clean_text_idem_stripped :
    (∀ v, clean_text (.str (clean_text v)) = clean_text v)
    ∧ (∀ v c, (clean_text v).data.head? = Option.some c → isPySpace c = false)
    ∧ (∀ v c, (clean_text v).data.getLast? = Option.some c → isPySpace c = false) := by
  have hcs : ∀ s : String, clean_text (.str s) = pyStrip s := by
    intro s
    simp [clean_text, pyIsNa, pyStrOf]
  refine ⟨?_, ?_, ?_⟩
  · intro v
    rcases clean_text_cases v with h | ⟨s, h⟩
    · rw [h, hcs]; rfl
    · rw [h, hcs, pyStrip_pyStrip]
  · intro v c h
    rcases clean_text_cases v with hv | ⟨s, hv⟩
    · rw [hv] at h; simp at h
    · rw [hv] at h; exact head_pyStrip h
  · intro v c h
    rcases clean_text_cases v with hv | ⟨s, hv⟩
    · rw [hv] at h; simp at h
    · rw [hv] at h; exact last_pyStrip h

theorem clean_text_idem_stripped_witness : isPySpace 'a' = false :=
  clean_text_idem_stripped.2.1 (.str " a ") 'a' (by decide)

/-- C7 counterexample. `validate_email` is not total: on the float NaN
(which pandas uses for a missing cell) and on an int, the membership
test `'@' not in email` raises an uncaught `TypeError`. -/
theorem validate_email_raises_cex :
    validate_email PyVal.nan = .error .typeError
    ∧ validate_email (.int 5) = .error .typeError := by decide

/-- `float()` on a string never raises anything but `ValueError`, also
under the full model: an overflowing literal converts to an infinity
rather than raising. -/
theorem pyFloatEvalStr_error {s : String} {e : PyExn}
    (h : pyFloatEvalStr s = .error e) : e = .valueError := by
  simp only [pyFloatEvalStr] at h
  split at h
  · cases h
  · split at h
    · cases h
    · split at h
      · next e' he' => cases h; exact pyFloatOfStr_error he'
      · cases h

/-- The body of `validate_price` can only raise `ValueError`, also
under the full model. -/
theorem validate_price_body_full_error {v : PyVal} {e : PyExn}
    (h : validate_price_body_full v = .error e) : e = .valueError := by
  unfold validate_price_body_full at h
  split at h
  · cases h
  · split at h
    · next e' he' => cases h; exact pyFloatEvalStr_error he'
    · cases h

set_option maxRecDepth 8192 in
/-- C7 amended. Over scalar values, under the float model that includes
the non-finite `float()` outcomes: `clean_text` maps missing input to
the empty string and its body cannot raise. `validate_price` is total —
its handler covers every exception its body can raise, because an
overflowing price string converts to an infinity that the `>= 0`
comparison handles. `validate_integer` returns normally on missing
input, on a NaN conversion, and on every finite conversion, but when
`float(value)` yields an infinity (`"inf"`, `"1e400"`) or raises
`OverflowError` outright (an int beyond double range), the
`OverflowError` is not caught by `except (ValueError, TypeError)` and
propagates out of the validator. `validate_email` never raises on
`None` or on a string, but (counterexample above) raises `TypeError` on
truthy non-string values. -/
theorem validators_total_amended :
    (∀ v, pyIsNa v = true → clean_text v = "")
    ∧ validate_email PyVal.none = .ok false
    ∧ (∀ s, ∃ b, validate_email (.str s) = .ok b)
    ∧ (∀ v, ∃ r, validate_price_full v = .ok r)
    ∧ (∀ v, pyIsNa v = true → validate_integer_full v = .ok Option.none)
    ∧ (∀ v fv, pyFloatEvalVal v = .ok (FloatV.finite fv) →
        validate_integer_full v = .ok (Option.some (pyIntOfFloat fv)))
    ∧ validate_integer_full (.str "nan") = .ok Option.none
    ∧ validate_integer_full (.str "inf") = .error .overflowError
    ∧ validate_integer_full (.str "1e400") = .error .overflowError
    ∧ (∀ v, pyFloatEvalVal v = .error .overflowError →
        validate_integer_full v = .error .overflowError)
    ∧ validate_integer_full (.int (10 ^ 400)) = .error .overflowError := by
  refine ⟨?_, by decide, ?_, ?_, ?_, ?_, by decide, by decide, by decide, ?_, by decide⟩
  · intro v hv
    simp [clean_text, hv]
  · intro s
    unfold validate_email
    split
    · exact ⟨false, rfl⟩
    · simp only [pyContainsChar]
      split
      · exact ⟨false, rfl⟩
      · exact ⟨true, rfl⟩
  · intro v
    unfold validate_price_full
    cases h : validate_price_body_full v with
    | ok r => exact ⟨r, rfl⟩
    | error e =>
      rcases validate_price_body_full_error h with rfl
      exact ⟨Option.none, rfl⟩
  · intro v hv
    simp [validate_integer_full, validate_integer_body_full, hv]
  · intro v fv h
    have hna : pyIsNa v = false := by
      cases v <;> simp_all [pyFloatEvalVal, pyIsNa]
    simp [validate_integer_full, validate_integer_body_full, hna, h, pyIntOfFloatV]
  · intro v h
    have hna : pyIsNa v = false := by
      cases v <;> simp_all [pyFloatEvalVal, pyIsNa]
    simp [validate_integer_full, validate_integer_body_full, hna, h]

set_option maxRecDepth 8192 in
theorem validators_total_amended_witness :
    validate_integer_full (.str "2.5") = .ok (Option.some (pyIntOfFloat ⟨25, 1⟩)) :=
  validators_total_amended.2.2.2.2.2.1 (.str "2.5") ⟨25, 1⟩ (by decide)

/-- Kept and dropped rows of the dedup step partition its input. -/
theorem dedupByName_length (rows : List Row) (seen : List PyVal) :
    (dedupByName rows seen).1.length + (dedupByName rows seen).2.length
      = rows.length := by
  induction rows generalizing seen with
  | nil => rfl
  | cons r rs ih =>
    by_cases h : getCell r "name" ∈ seen
    · simp only [dedupByName, if_pos h, List.length_cons]
      have := ih seen
      omega
    · simp only [dedupByName, if_neg h, List.length_cons]
      have := ih (getCell r "name" :: seen)
      omega

/-- Kept and dropped rows of the empty-name filter partition its
input. -/
theorem keep_empty_partition (rows : List Row) :
    (keepNonEmptyName rows).length + (emptyNameDropped rows).length
      = rows.length := by
  induction rows with
  | nil => rfl
  | cons r rs ih =>
    unfold keepNonEmptyName emptyNameDropped at *
    by_cases h : getCell r "name" = PyVal.str ""
    · simp only [List.filter_cons, h]
      simp only [decide_not, decide_eq_true_eq]  -- reduce the decide coercions
      simp [h] at *
      omega
    · simp only [List.filter_cons]
      rw [if_pos (by simpa using h), if_neg (by simpa using h)]
      simp only [List.length_cons]
      omega

/-- C5. A categories source missing the required `name` column is
rejected before any per-cell validation: for every row content, every
backend and every starting statistics state, the load returns failure,
hands nothing to the backend, and leaves the whole statistics dictionary
(all entity types included) unchanged. -/
theorem missing_required_column_rejects_batch :
    ∀ (dbType : String) (dbInsertOk : Bool) (df : Frame) (st : Stats),
      "name" ∉ df.cols →
      load_categories_csv dbType dbInsertOk df st = ⟨false, st, []⟩ := by
  intro dbType dbInsertOk df st h
  unfold load_categories_csv
  rw [if_neg h]

theorem missing_required_column_witness :
    load_categories_csv "postgresql" true
        ⟨["title"], [[("title", .str "Books")]]⟩ initStats
      = ⟨false, initStats, []⟩ :=
  missing_required_column_rejects_batch "postgresql" true _ _ (by decide)

/-- C4. Evaluating the load at the spec's own example — a categories
source whose rows carry only a `name` (`Books`, `Books`, `""`), hence no
`description` column: `df.get('description', '')` returns the plain
string `''`, whose `.apply` raises `AttributeError`; the handler catches
it, counts one error and returns failure. Nothing is inserted — not the
one category the claim promises. -/
theorem categories_missing_description_crash :
    load_categories_csv "postgresql" true dfBooksNoDesc initStats
      = ⟨false, { initStats with categories := ⟨0, 0, 1⟩ }, []⟩ := by decide

/-- C1 counterexample. On the three-row source `Books, Books, ""` (with
a description column), the load reports `processed = 1`: the dropped
duplicate and the rejected empty name are counted nowhere — `processed`
is not the number of input rows (3), and there is no `duplicatesSkipped`
counter making `processed = inserted + errors + duplicatesSkipped` hold
over input rows. -/
theorem stats_equation_cex :
    (load_categories_csv "postgresql" true dfBooks initStats).stats.categories
      = ⟨1, 1, 0⟩
    ∧ dfBooks.rows.length = 3
    ∧ (dedupByName (keepNonEmptyName (cleanCategories dfBooks).rows) []).2.length = 1
    ∧ (emptyNameDropped (cleanCategories dfBooks).rows).length = 1
    ∧ ¬ ((load_categories_csv "postgresql" true dfBooks initStats).stats.categories.processed
          = (load_categories_csv "postgresql" true dfBooks initStats).stats.categories.inserted
            + (load_categories_csv "postgresql" true dfBooks initStats).stats.categories.errors
            + (dedupByName (keepNonEmptyName (cleanCategories dfBooks).rows) []).2.length)
    ∧ ¬ ((load_categories_csv "postgresql" true dfBooks initStats).stats.categories.processed
          = dfBooks.rows.length) := by decide

/-- C1 amended. `processed` is assigned after the empty-name filter and
the in-batch dedup, so on a successful SQL-backend load
`processed = inserted`, `errors` is unchanged, and the accounting that
does hold is `processed + emptyNameDrops + duplicateDrops = input rows`;
the dropped rows appear in no statistics counter. -/
theorem stats_equation_amended :
    ∀ (dbType : String) (df : Frame) (st : Stats),
      "name" ∈ df.cols → "description" ∈ df.cols →
      dbType = "postgresql" ∨ dbType = "mysql" →
      (load_categories_csv dbType true df st).success = true
      ∧ (load_categories_csv dbType true df st).stats.categories.processed
          = (load_categories_csv dbType true df st).stats.categories.inserted
      ∧ (load_categories_csv dbType true df st).stats.categories.errors
          = st.categories.errors
      ∧ (load_categories_csv dbType true df st).stats.categories.processed
          + (emptyNameDropped (cleanCategories df).rows).length
          + (dedupByName (keepNonEmptyName (cleanCategories df).rows) []).2.length
        = df.rows.length := by
  intro dbType df st h1 h2 h3
  unfold load_categories_csv
  rw [if_pos h1, if_pos h2, if_pos h3]
  refine ⟨rfl, rfl, rfl, ?_⟩
  show (dedupByName (keepNonEmptyName (cleanCategories df).rows) []).1.length
      + (emptyNameDropped (cleanCategories df).rows).length
      + (dedupByName (keepNonEmptyName (cleanCategories df).rows) []).2.length
    = df.rows.length
  have hdedup := dedupByName_length (keepNonEmptyName (cleanCategories df).rows) []
  have hpart := keep_empty_partition (cleanCategories df).rows
  have hmap : (cleanCategories df).rows.length = df.rows.length := by
    simp [cleanCategories]
  omega

theorem stats_equation_amended_witness :
    (load_categories_csv "postgresql" true dfBooks initStats).success = true
    ∧ (load_categories_csv "postgresql" true dfBooks initStats).stats.categories.processed
        = (load_categories_csv "postgresql" true dfBooks initStats).stats.categories.inserted
    ∧ (load_categories_csv "postgresql" true dfBooks initStats).stats.categories.errors
        = initStats.categories.errors
    ∧ (load_categories_csv "postgresql" true dfBooks initStats).stats.categories.processed
        + (emptyNameDropped (cleanCategories dfBooks).rows).length
        + (dedupByName (keepNonEmptyName (cleanCategories dfBooks).rows) []).2.length
      = dfBooks.rows.length :=
  stats_equation_amended "postgresql" dfBooks initStats (by decide) (by decide)
    (Or.inl rfl)

/-- C9. For a database type whose lowercasing is none of `postgresql`,
`mysql`, `mongodb`, `connect` matches no branch: it logs success and
returns `True` while `self.connection` and `self.engine` stay `None`,
whatever the drivers would have done. -/
theorem connect_unknown_dbtype :
    ∀ (db_type : String) (driverOk : Bool),
      pyLower db_type ≠ "postgresql" →
      pyLower db_type ≠ "mysql" →
      pyLower db_type ≠ "mongodb" →
      connect (mkIngestion db_type) driverOk = (true, mkIngestion db_type)
      ∧ (mkIngestion db_type).connection = Option.none
      ∧ (mkIngestion db_type).engine = Option.none := by
  intro s ok h1 h2 h3
  refine ⟨?_, rfl, rfl⟩
  simp [connect, mkIngestion, h1, h2, h3]

theorem connect_unknown_dbtype_witness :
    connect (mkIngestion "sqlite") true = (true, mkIngestion "sqlite")
    ∧ (mkIngestion "sqlite").connection = Option.none
    ∧ (mkIngestion "sqlite").engine = Option.none :=
  connect_unknown_dbtype "sqlite" true (by decide) (by decide) (by decide)

end Ingest

namespace Schema

theorem seqsOf_append_single (tbl : List (Nat × Nat)) (cid c s : Nat) :
    seqsOf (tbl ++ [(c, s)]) cid
      = seqsOf tbl cid ++ (if c = cid then [s] else []) := by
  unfold seqsOf
  rw [List.filter_append, List.map_append]
  congr 1
  by_cases h : c = cid <;> simp [h]

theorem lt_triggerSeq_of_mem {tbl : List (Nat × Nat)} {cid x : Nat}
    (hx : x ∈ seqsOf tbl cid) : x < triggerSeq tbl cid := by
  unfold triggerSeq
  cases hmax : (seqsOf tbl cid).max? with
  | none =>
    rw [List.max?_eq_none_iff] at hmax
    rw [hmax] at hx
    cases hx
  | some m =>
    show x < m + 1
    have := (List.max?_eq_some_iff'.mp hmax).2 x hx
    omega

theorem msg_pairwise {tbl : List (Nat × Nat)} (h : MsgReachable tbl) :
    ∀ cid, (seqsOf tbl cid).Pairwise (· < ·) := by
  induction h with
  | nil => intro cid; simp [seqsOf]
  | insert cid' sup hprev ih =>
    intro cid
    unfold insertMessage
    rw [seqsOf_append_single]
    by_cases hc : cid' = cid
    · subst hc
      rw [if_pos rfl]
      refine List.pairwise_append.mpr ⟨ih cid', by simp, ?_⟩
      intro a ha b hb
      rw [List.mem_singleton] at hb
      subst hb
      exact lt_triggerSeq_of_mem ha
    · rw [if_neg hc, List.append_nil]
      exact ih cid

theorem doc_inv {st : DocMsgState} (h : DocReachable st) :
    ∀ cid, (∀ x ∈ seqsOf st.msgs cid, x ≤ st.counters cid)
      ∧ (seqsOf st.msgs cid).Pairwise (· < ·) := by
  induction h with
  | nil => intro cid; exact ⟨by simp [seqsOf], by simp [seqsOf]⟩
  | insert cid' sup hprev ih =>
    intro cid
    unfold docInsertMessage
    simp only []
    rw [seqsOf_append_single]
    by_cases hc : cid' = cid
    · subst hc
      rw [if_pos rfl]
      constructor
      · intro x hx
        rcases List.mem_append.mp hx with h1 | h2
        · have := (ih cid').1 x h1
          rw [if_pos rfl]
          omega
        · rw [List.mem_singleton] at h2
          subst h2
          simp
      · refine List.pairwise_append.mpr ⟨(ih cid').2, by simp, ?_⟩
        intro a ha b hb
        rw [List.mem_singleton] at hb
        subst hb
        have := (ih cid').1 a ha
        omega
    · rw [if_neg hc, List.append_nil]
      refine ⟨?_, (ih cid).2⟩
      intro x hx
      have hne : ¬ (cid = cid') := fun he => hc he.symm
      simp only [if_neg hne]
      exact (ih cid).1 x hx

/-- C2. Message sequence numbers are assigned at persistence time — the
`BEFORE INSERT` trigger overwrites any source-supplied value, so the
insert result does not depend on it; on every reachable table they are
strictly increasing per conversation; and three messages inserted in
source order into an empty conversation get `[1, 2, 3]`. The same holds
on the document backend's per-conversation counter (modelled from the
spec, see `docInsertMessage`). -/
theorem message_sequence_assignment :
    (∀ tbl cid s₁ s₂, insertMessage tbl cid s₁ = insertMessage tbl cid s₂)
    ∧ (∀ tbl, MsgReachable tbl → ∀ cid, (seqsOf tbl cid).Pairwise (· < ·))
    ∧ seqsOf
        (insertMessage
          (insertMessage (insertMessage [] 7 (Option.some 99)) 7 Option.none)
          7 (Option.some 5)) 7 = [1, 2, 3]
    ∧ (∀ st, DocReachable st → ∀ cid, (seqsOf st.msgs cid).Pairwise (· < ·))
    ∧ seqsOf
        (docInsertMessage
          (docInsertMessage (docInsertMessage ⟨fun _ => 0, []⟩ 7 (Option.some 99))
            7 Option.none) 7 (Option.some 5)).msgs 7 = [1, 2, 3] :=
  ⟨fun _ _ _ _ => rfl, fun _ h => msg_pairwise h, by decide,
   fun _ h cid => (doc_inv h cid).2, by decide⟩

theorem message_sequence_assignment_witness :
    (seqsOf (insertMessage [] 3 Option.none) 3).Pairwise (· < ·) :=
  message_sequence_assignment.2.1 _
    (MsgReachable.insert 3 Option.none MsgReachable.nil) 3

/-- C8. In every `order_items` table reachable by inserts, the stored
`total_price` equals `quantity * unit_price`: the column is generated
from the other two at insert time — `insertOrderItem` takes no
total-price input at all, so an input-supplied total can never be stored
or conflict. -/
theorem order_item_total_price_generated :
    ∀ tbl, OrderItemsReachable tbl →
      ∀ r ∈ tbl, r.total_price = (r.quantity : ℚ) * r.unit_price.toRat := by
  intro tbl h
  induction h with
  | nil => intro r hr; cases hr
  | insert hprev heq ih =>
    intro r hr
    unfold insertOrderItem at heq
    split at heq
    · injection heq with heq
      subst heq
      rcases List.mem_append.mp hr with h1 | h2
      · exact ih r h1
      · rw [List.mem_singleton] at h2
        subst h2
        rfl
    · cases heq

theorem order_item_total_price_generated_witness :
    sampleOrderItem.total_price
      = (sampleOrderItem.quantity : ℚ) * sampleOrderItem.unit_price.toRat :=
  order_item_total_price_generated sampleOrderItems
    (OrderItemsReachable.insert OrderItemsReachable.nil
      (by show insertOrderItem [] (Option.some 1) (Option.some 1) 2 ⟨250, 2⟩
            = Option.some sampleOrderItems
          unfold insertOrderItem
          rw [if_pos (by decide)]
          rfl))
    sampleOrderItem (List.mem_singleton.mpr rfl)

end Schema
